import Mathlib

/-!
Verification development for the trigger-scenario orchestration core of
`pkg/requests/examples.go` (stripe-cli).  The Go file is shallowly embedded:
each trigger method becomes a state-passing Lean function over an executor
oracle.  The external request executor (`Base.MakeRequest`, which lives
outside this file's package and is treated as a black box by the spec) is
modelled as an oracle mapping the index of the issued call to either an
error or a raw response body.
-/

/-- A decoded JSON value, as produced by Go's `encoding/json` unmarshalling
into `interface\x7b\x7d`: `null` becomes a nil interface, strings stay strings,
numbers become `float64`, arrays become slices and objects become
`map[string]interface\x7b\x7d`. -/
inductive Json where
  | null : Json
  | jbool (b : Bool) : Json
  | jnum (n : Int) : Json
  | jstr (s : String) : Json
  | jarr (xs : List Json) : Json
  | jobj (fields : List (String × Json)) : Json

/-- The decoded form of one response body: Go's `map[string]interface\x7b\x7d`,
modelled as an association list with unique keys. -/
abbrev RMap := List (String × Json)

/-- Go map indexing `m[k]`: `none` when the key is absent. -/
def mapGet (m : RMap) (k : String) : Option Json :=
  match m with
  | [] => none
  | (k', v) :: rest => if k' = k then some v else mapGet rest k

mutual

/-- Go's `fmt.Sprintf` with verb `%s` applied to one decoded JSON value held
in a non-nil `interface\x7b\x7d`.  A string prints as itself; a nil interface
(JSON `null`) prints as `%!s(<nil>)`; a `float64` or `bool` prints with the
`%!s(type=value)` bad-verb notice; slices and maps print elementwise. -/
def goFmtVal : Json → String
  | .null => "%!s(<nil>)"
  | .jbool b => "%!s(bool=" ++ (if b then "true" else "false") ++ ")"
  | .jnum n => "%!s(float64=" ++ toString n ++ ")"
  | .jstr s => s
  | .jarr xs => "[" ++ goFmtSeq xs ++ "]"
  | .jobj fs => "map[" ++ goFmtFields fs ++ "]"

/-- Elements of a slice under `%s`, separated by single spaces. -/
def goFmtSeq : List Json → String
  | [] => ""
  | [x] => goFmtVal x
  | x :: y :: xs => goFmtVal x ++ " " ++ goFmtSeq (y :: xs)

/-- Entries of a map under `%s`, `key:value` separated by single spaces. -/
def goFmtFields : List (String × Json) → String
  | [] => ""
  | [(k, v)] => k ++ ":" ++ goFmtVal v
  | (k, v) :: f :: fs => k ++ ":" ++ goFmtVal v ++ " " ++ goFmtFields (f :: fs)

end

/-- Go's `fmt.Sprintf` with verb `%s` applied to the result of a map index
`m["id"]`: a missing key yields the zero value of `interface\x7b\x7d` (nil), which
`fmt` renders as `%!s(<nil>)`. -/
def goFmtS : Option Json → String
  | none => "%!s(<nil>)"
  | some v => goFmtVal v

/-- A raw HTTP response body as handed back by the executor: either bytes
that are not well-formed JSON (carrying the decode error message), or bytes
whose JSON parse is `j`. -/
inductive Raw where
  | malformed (errMsg : String) : Raw
  | wellFormed (j : Json) : Raw

/-- Embeds `parseResponse` (examples.go:20): `json.Unmarshal` of the body
into a `map[string]interface\x7b\x7d`.  Malformed bytes fail with the decoder's
error; a JSON object decodes to its field map; JSON `null` leaves the nil
map with no error (Go semantics); any other well-formed JSON value fails
with an unmarshal type error. -/
def parseResponse : Raw → Except String RMap
  | .malformed e => .error e
  | .wellFormed (.jobj fields) => .ok fields
  | .wellFormed .null => .ok []
  | .wellFormed _ => .error "json: cannot unmarshal value into Go value of type map[string]interface \x7b\x7d"

/-- Modelled from the spec: the account profile from the external `config`
package (not under src/); opaque read-only credential material borrowed by
the engine (spec sections 2 and 6).  None of its fields are consulted by the
orchestration logic, so it is an empty structure here. -/
structure ConfigProfile where
  mk ::

/-- Embeds `RequestParameters` as used by examples.go: the ordered
`key=value` data list and the configured API version. -/
structure RequestParameters where
  data : List String
  version : String

/-- Embeds `Base` as constructed by examples.go: the profile, HTTP method,
output-suppression flag and API base URL handed to the executor. -/
structure Base where
  Profile : ConfigProfile
  Method : String
  SuppressOutput : Bool
  APIBaseURL : String

/-- Embeds `Examples` (examples.go:42): the engine's read-only context. -/
structure Examples where
  Profile : ConfigProfile
  APIBaseURL : String
  APIVersion : String
  APIKey : String

/-- One request issued to the executor: everything `MakeRequest` receives. -/
structure Call where
  base : Base
  apiKey : String
  endpoint : String
  params : RequestParameters

/-- The observable trace of one trigger invocation: the requests issued to
the executor, in order, and the lines printed to standard output. -/
structure St where
  calls : List Call
  prints : List String

/-- The empty trace a trigger invocation starts from. -/
def stInit : St := ⟨[], []⟩

/-- The executor oracle: the outcome of the n-th call issued during one
trigger invocation (counting from 0). -/
abbrev Exec := Nat → Except String Raw

/-- Modelled from the spec: `Base.MakeRequest`, the external Request
Executor collaborator (spec sections 4.2 and 6), whose code is not under
src/.  It performs the network call for the request descriptor and returns
the raw body or a structured error; on failure no body is returned.  The
embedding records the issued request in the trace and consults the oracle
at the index of this call. -/
def makeRequest (oracle : Exec) (base : Base) (apiKey : String) (endpoint : String)
    (params : RequestParameters) (s : St) : St × Except String Raw :=
  (⟨s.calls ++ [⟨base, apiKey, endpoint, params⟩], s.prints⟩, oracle s.calls.length)

/-- Embeds `buildRequest` (examples.go:49): pure construction of the request
descriptor; output suppression is always requested. -/
def buildRequest (ex : Examples) (method : String) (data : List String) :
    Base × RequestParameters :=
  (⟨ex.Profile, method, true, ex.APIBaseURL⟩, ⟨data, ex.APIVersion⟩)

/-- Embeds `performStripeRequest` (examples.go:65): issue the call through
the executor, propagate its error unchanged, otherwise decode the body. -/
def performStripeRequest (ex : Examples) (oracle : Exec) (req : Base) (endpoint : String)
    (params : RequestParameters) (s : St) : St × Except String RMap :=
  let (s', r) := makeRequest oracle req ex.APIKey endpoint params s
  match r with
  | .error e => (s', .error e)
  | .ok resp => (s', parseResponse resp)

/-- The combined executor-plus-decoder outcome of the n-th call: the error
of the executor if it fails, otherwise the decode result of its body. -/
def stepOutcome (oracle : Exec) (n : Nat) : Except String RMap :=
  match oracle n with
  | .error e => .error e
  | .ok r => parseResponse r

/-- Embeds the token constants (examples.go:13). -/
def validToken : String := "tok_visa"

/-- Embeds the decline-simulating token constant (examples.go:15). -/
def declinedToken : String := "tok_chargeDeclined"

/-- Embeds the dispute-simulating token constant (examples.go:16). -/
def disputeToken : String := "tok_createDisputeInquiry"

/-- Embeds the charge-fail-simulating token constant (examples.go:17). -/
def chargeFailedToken : String := "tok_chargeCustomerFail"

/-- Embeds `chargeCreated` (examples.go:74). -/
def chargeCreated (ex : Examples) (oracle : Exec) (token : String) (data : List String)
    (s : St) : St × Except String RMap :=
  let paymentSource := "source=" ++ token
  let (req, params) := buildRequest ex "POST" (data ++ [paymentSource])
  performStripeRequest ex oracle req "/v1/charges" params s

/-- Embeds `ChargeCaptured` (examples.go:84): create an uncaptured charge,
then capture it by the id taken from the first response with `%s`. -/
def ChargeCaptured (ex : Examples) (oracle : Exec) (s : St) : St × Except String Unit :=
  match chargeCreated ex oracle validToken ["amount=2000", "currency=usd", "capture=false"] s with
  | (s, .error e) => (s, .error e)
  | (s, .ok charge) =>
    let (req, params) := buildRequest ex "POST" []
    let reqURL := "/v1/charges/" ++ goFmtS (mapGet charge "id") ++ "/capture"
    match performStripeRequest ex oracle req reqURL params s with
    | (s, .error e) => (s, .error e)
    | (s, .ok _) => (s, .ok ())

/-- Embeds `ChargeDisputed` (examples.go:102). -/
def ChargeDisputed (ex : Examples) (oracle : Exec) (s : St) : St × Except String Unit :=
  match chargeCreated ex oracle disputeToken ["amount=2000", "currency=usd"] s with
  | (s, .error e) => (s, .error e)
  | (s, .ok _) => (s, .ok ())

/-- Embeds `ChargeFailed` (examples.go:111). -/
def ChargeFailed (ex : Examples) (oracle : Exec) (s : St) : St × Except String Unit :=
  match chargeCreated ex oracle declinedToken ["amount=2000", "currency=usd"] s with
  | (s, .error e) => (s, .error e)
  | (s, .ok _) => (s, .ok ())

/-- Embeds `ChargeRefunded` (examples.go:120). -/
def ChargeRefunded (ex : Examples) (oracle : Exec) (s : St) : St × Except String Unit :=
  match chargeCreated ex oracle validToken ["amount=2000", "currency=usd"] s with
  | (s, .error e) => (s, .error e)
  | (s, .ok charge) =>
    let (req, params) := buildRequest ex "POST" ["charge=" ++ goFmtS (mapGet charge "id")]
    match performStripeRequest ex oracle req "/v1/refunds" params s with
    | (s, .error e) => (s, .error e)
    | (s, .ok _) => (s, .ok ())

/-- Embeds `ChargeSucceeded` (examples.go:137). -/
def ChargeSucceeded (ex : Examples) (oracle : Exec) (s : St) : St × Except String Unit :=
  match chargeCreated ex oracle validToken ["amount=2000", "currency=usd"] s with
  | (s, .error e) => (s, .error e)
  | (s, .ok _) => (s, .ok ())

/-- Embeds `paymentMethodCreatedWithToken` (examples.go:586). -/
def paymentMethodCreatedWithToken (ex : Examples) (oracle : Exec) (token : String)
    (s : St) : St × Except String RMap :=
  let (req, params) := buildRequest ex "POST"
    ["type=card", "card[token]=" ++ token, "billing_details[email]=stripe@example.com"]
  performStripeRequest ex oracle req "/v1/payment_methods" params s

/-- Embeds `CheckoutSessionCompleted` (examples.go:147): create a checkout
session, look up its payment page, create a payment method, confirm the
payment page; each extracted id is checked for presence. -/
def CheckoutSessionCompleted (ex : Examples) (oracle : Exec) (s : St) : St × Except String Unit :=
  let (req0, params0) := buildRequest ex "POST"
    ["success_url=https://httpbin.org/post",
     "cancel_url=https://httpbin.org/post",
     "payment_method_types[]=card",
     "line_items[][name]=T-shirt",
     "line_items[][description]=Comfortable cotton t-shirt",
     "line_items[][amount]=1500",
     "line_items[][currency]=usd",
     "line_items[][quantity]=2"]
  match performStripeRequest ex oracle req0 "/v1/checkout/sessions" params0 s with
  | (s, .error e) => (s, .error e)
  | (s, .ok checkoutSession) =>
    match mapGet checkoutSession "id" with
    | none => (s, .error "Unable to retrieve CheckoutSession ID")
    | some sessID =>
      let (req1, params1) := buildRequest ex "GET" ["session_id=" ++ goFmtVal sessID]
      match performStripeRequest ex oracle req1 "/v1/payment_pages" params1 s with
      | (s, .error e) => (s, .error e)
      | (s, .ok paymentPage) =>
        match mapGet paymentPage "id" with
        | none => (s, .error "Unable to retrieve PaymentPage ID")
        | some paymentPageID =>
          match paymentMethodCreatedWithToken ex oracle validToken s with
          | (s, .error e) => (s, .error e)
          | (s, .ok paymentMethod) =>
            match mapGet paymentMethod "id" with
            | none => (s, .error "Unable to retrieve PaymentMethod ID")
            | some pmID =>
              let (req3, params3) := buildRequest ex "POST" ["payment_method=" ++ goFmtVal pmID]
              match performStripeRequest ex oracle req3
                  ("/v1/payment_pages/" ++ goFmtVal paymentPageID ++ "/confirm") params3 s with
              | (s, .error e) => (s, .error e)
              | (s, .ok _) => (s, .ok ())

/-- Embeds `customerCreated` (examples.go:202). -/
def customerCreated (ex : Examples) (oracle : Exec) (data : List String)
    (s : St) : St × Except String RMap :=
  let (req, params) := buildRequest ex "POST" data
  performStripeRequest ex oracle req "/v1/customers" params s

/-- Embeds `CustomerUpdated` (examples.go:215). -/
def CustomerUpdated (ex : Examples) (oracle : Exec) (s : St) : St × Except String Unit :=
  match customerCreated ex oracle [] s with
  | (s, .error e) => (s, .error e)
  | (s, .ok customer) =>
    let (req, params) := buildRequest ex "POST" ["metadata[foo]=bar"]
    let reqURL := "/v1/customers/" ++ goFmtS (mapGet customer "id")
    match performStripeRequest ex oracle req reqURL params s with
    | (s, .error e) => (s, .error e)
    | (s, .ok _) => (s, .ok ())

/-- Embeds `CustomerDeleted` (examples.go:229). -/
def CustomerDeleted (ex : Examples) (oracle : Exec) (s : St) : St × Except String Unit :=
  match customerCreated ex oracle [] s with
  | (s, .error e) => (s, .error e)
  | (s, .ok customer) =>
    let (req, params) := buildRequest ex "DELETE" []
    let reqURL := "/v1/customers/" ++ goFmtS (mapGet customer "id")
    match performStripeRequest ex oracle req reqURL params s with
    | (s, .error e) => (s, .error e)
    | (s, .ok _) => (s, .ok ())

/-- Embeds `CustomerSubscriptionDeleted` (examples.go:323): create a customer
with a card, create a plan, subscribe the customer, delete the subscription. -/
def CustomerSubscriptionDeleted (ex : Examples) (oracle : Exec) (s : St) : St × Except String Unit :=
  match customerCreated ex oracle ["source=" ++ validToken] s with
  | (s, .error e) => (s, .error e)
  | (s, .ok customer) =>
    let (req1, params1) := buildRequest ex "POST"
      ["currency=usd", "interval=month", "amount=2000", "product[name]=myproduct"]
    match performStripeRequest ex oracle req1 "/v1/plans" params1 s with
    | (s, .error e) => (s, .error e)
    | (s, .ok plan) =>
      let (req2, params2) := buildRequest ex "POST"
        ["items[0][plan]=" ++ goFmtS (mapGet plan "id"),
         "customer=" ++ goFmtS (mapGet customer "id")]
      match performStripeRequest ex oracle req2 "/v1/subscriptions" params2 s with
      | (s, .error e) => (s, .error e)
      | (s, .ok subscription) =>
        let (req3, params3) := buildRequest ex "DELETE" []
        let reqURL := "/v1/subscriptions/" ++ goFmtS (mapGet subscription "id")
        match performStripeRequest ex oracle req3 reqURL params3 s with
        | (s, .error e) => (s, .error e)
        | (s, .ok _) => (s, .ok ())

/-- Embeds `createInvoiceItem` (examples.go:357). -/
def createInvoiceItem (ex : Examples) (oracle : Exec) (data : List String)
    (s : St) : St × Except String RMap :=
  let (req, params) := buildRequest ex "POST" data
  performStripeRequest ex oracle req "/v1/invoiceitems" params s

/-- Embeds `invoiceCreated` (examples.go:362). -/
def invoiceCreated (ex : Examples) (oracle : Exec) (data : List String)
    (s : St) : St × Except String RMap :=
  let (req, params) := buildRequest ex "POST" data
  performStripeRequest ex oracle req "/v1/invoices" params s

/-- Embeds `InvoiceCreated` (examples.go:369): create a customer, add an
invoice item for it, create an invoice for it. -/
def InvoiceCreated (ex : Examples) (oracle : Exec) (s : St) : St × Except String Unit :=
  match customerCreated ex oracle [] s with
  | (s, .error e) => (s, .error e)
  | (s, .ok customer) =>
    match createInvoiceItem ex oracle
        ["currency=usd", "customer=" ++ goFmtS (mapGet customer "id"), "amount=2000"] s with
    | (s, .error e) => (s, .error e)
    | (s, .ok _) =>
      match invoiceCreated ex oracle ["customer=" ++ goFmtS (mapGet customer "id")] s with
      | (s, .error e) => (s, .error e)
      | (s, .ok _) => (s, .ok ())

/-- Embeds `InvoicePaymentSucceeded` (examples.go:426): customer with a valid
card, invoice item, invoice, then pay the invoice. -/
def InvoicePaymentSucceeded (ex : Examples) (oracle : Exec) (s : St) : St × Except String Unit :=
  match customerCreated ex oracle ["source=" ++ validToken] s with
  | (s, .error e) => (s, .error e)
  | (s, .ok customer) =>
    match createInvoiceItem ex oracle
        ["currency=usd", "customer=" ++ goFmtS (mapGet customer "id"), "amount=2000"] s with
    | (s, .error e) => (s, .error e)
    | (s, .ok _) =>
      match invoiceCreated ex oracle ["customer=" ++ goFmtS (mapGet customer "id")] s with
      | (s, .error e) => (s, .error e)
      | (s, .ok invoice) =>
        let (req, params) := buildRequest ex "POST" []
        let reqURL := "/v1/invoices/" ++ goFmtS (mapGet invoice "id") ++ "/pay"
        match performStripeRequest ex oracle req reqURL params s with
        | (s, .error e) => (s, .error e)
        | (s, .ok _) => (s, .ok ())

/-- Embeds `InvoicePaymentFailed` (examples.go:458): customer with the
charge-fail-simulating card, invoice item, invoice, a stray
`fmt.Println("hello")` (examples.go:482), then pay the invoice. -/
def InvoicePaymentFailed (ex : Examples) (oracle : Exec) (s : St) : St × Except String Unit :=
  match customerCreated ex oracle ["source=" ++ chargeFailedToken] s with
  | (s, .error e) => (s, .error e)
  | (s, .ok customer) =>
    match createInvoiceItem ex oracle
        ["currency=usd", "customer=" ++ goFmtS (mapGet customer "id"), "amount=2000"] s with
    | (s, .error e) => (s, .error e)
    | (s, .ok _) =>
      match invoiceCreated ex oracle ["customer=" ++ goFmtS (mapGet customer "id")] s with
      | (s, .error e) => (s, .error e)
      | (s, .ok invoice) =>
        let s := St.mk s.calls (s.prints ++ ["hello"])
        let (req, params) := buildRequest ex "POST" []
        let reqURL := "/v1/invoices/" ++ goFmtS (mapGet invoice "id") ++ "/pay"
        match performStripeRequest ex oracle req reqURL params s with
        | (s, .error e) => (s, .error e)
        | (s, .ok _) => (s, .ok ())

/-- Embeds `WebhookEndpoint` (examples.go:35). -/
structure WebhookEndpoint where
  Application : String
  EnabledEvents : List String
  URL : String
deriving DecidableEq, Repr

/-- Embeds `WebhookEndpointList` (examples.go:30). -/
structure WebhookEndpointList where
  Data : List WebhookEndpoint
deriving DecidableEq, Repr

/-- Lenient decode of one string field, as `json.Unmarshal` fills a struct
field from a JSON object: absent or differently typed values leave the zero
value. -/
def decodeStrField (v : Option Json) : String :=
  match v with
  | some (.jstr s) => s
  | _ => ""

/-- Lenient decode of a `[]string` field. -/
def decodeStrListField (v : Option Json) : List String :=
  match v with
  | some (.jarr xs) => xs.filterMap (fun j => match j with | .jstr s => some s | _ => none)
  | _ => []

/-- Decode of one `WebhookEndpoint` from a JSON value. -/
def decodeWebhookEndpoint (j : Json) : WebhookEndpoint :=
  match j with
  | .jobj fs =>
    ⟨decodeStrField (mapGet fs "application"),
     decodeStrListField (mapGet fs "enabled_events"),
     decodeStrField (mapGet fs "url")⟩
  | _ => ⟨"", [], ""⟩

/-- Models `json.Unmarshal(resp, &data)` with `data : WebhookEndpointList`
(examples.go:631), whose error is discarded by the caller: a malformed body
leaves the zero value; a JSON object populates `Data` from its `data` array
when present; anything else leaves the zero value. -/
def unmarshalWebhookEndpointList : Raw → WebhookEndpointList
  | .malformed _ => ⟨[]⟩
  | .wellFormed (.jobj fs) =>
    match mapGet fs "data" with
    | some (.jarr xs) => ⟨xs.map decodeWebhookEndpoint⟩
    | _ => ⟨[]⟩
  | .wellFormed _ => ⟨[]⟩

/-- Embeds `WebhookEndpointsList` (examples.go:617): one GET with
`limit=30`; the executor error is discarded (on failure no body comes back,
so unmarshalling leaves the zero value) and the decoded list is returned. -/
def WebhookEndpointsList (ex : Examples) (oracle : Exec) (s : St) : St × WebhookEndpointList :=
  let params : RequestParameters := ⟨["limit=30"], ex.APIVersion⟩
  let base : Base := ⟨ex.Profile, "GET", true, ex.APIBaseURL⟩
  let (s', r) := makeRequest oracle base ex.APIKey "/v1/webhook_endpoints" params s
  match r with
  | .error _ => (s', ⟨[]⟩)
  | .ok resp => (s', unmarshalWebhookEndpointList resp)

/-- Embeds the validation pattern of `ResendEvent` (examples.go:638). -/
def evtPattern : String := "^evt_[A-Za-z0-9]\x7b3,255\x7d$"

/-- Whether one character is matched by the class `[A-Za-z0-9]`. -/
def isEvtIDChar (c : Char) : Bool :=
  ('A' ≤ c && c ≤ 'Z') || ('a' ≤ c && c ≤ 'z') || ('0' ≤ c && c ≤ '9')

/-- Whether `id` matches the anchored regular expression `evtPattern`:
the literal `evt_` followed by 3 to 255 characters of `[A-Za-z0-9]`. -/
def evtPatternMatch (id : String) : Bool :=
  match id.toList with
  | 'e' :: 'v' :: 't' :: '_' :: rest =>
    decide (3 ≤ rest.length) && decide (rest.length ≤ 255) && rest.all isEvtIDChar
  | _ => false

/-- Models `regexp.MatchString(pattern, id)` for the fixed `evtPattern`
(examples.go:639).  Go's `MatchString` returns a non-nil error only when the
pattern itself fails to compile; `evtPattern` is a fixed, syntactically
valid regular expression, so compilation always succeeds and the result is
the match outcome. -/
def matchStringEvt (id : String) : Except String Bool :=
  .ok (evtPatternMatch id)

/-- Embeds `ResendEvent` (examples.go:637): validate the event id against
`evtPattern` before any network call; on match issue one retry call. -/
def ResendEvent (ex : Examples) (oracle : Exec) (id : String) (s : St) : St × Except String Unit :=
  match matchStringEvt id with
  | .error e => (s, .error e)
  | .ok mtch =>
    if !mtch then
      (s, .error ("Invalid event-id provided, should be of the form '" ++ evtPattern ++ "'"))
    else
      let (req, params) := buildRequest ex "POST" []
      let reqURL := "/v1/events/" ++ id ++ "/retry"
      match performStripeRequest ex oracle req reqURL params s with
      | (s, .error e) => (s, .error e)
      | (s, .ok _) => (s, .ok ())

/-- A concrete engine context for closed instances. -/
def exTest : Examples := ⟨⟨⟩, "https://api.stripe.com", "2019-03-14", "sk_test_abc"⟩

/-- An oracle answering every call with the JSON object `\x7b\x7d`. -/
def oracleEmptyObj : Exec := fun _ => .ok (.wellFormed (.jobj []))

/-- An oracle answering every call with `\x7b"id":"obj_1"\x7d`. -/
def oracleIdOk : Exec := fun _ => .ok (.wellFormed (.jobj [("id", Json.jstr "obj_1")]))

/-- An oracle failing every call. -/
def oracleBoom : Exec := fun _ => .error "boom"

/-- An oracle succeeding on call 0 with `\x7b"id":"cus_1"\x7d` and failing on
every later call. -/
def oracleFailAt1 : Exec := fun n =>
  if n = 0 then .ok (.wellFormed (.jobj [("id", Json.jstr "cus_1")])) else .error "boom"

/-- The mocked responses of the CheckoutSessionCompleted scenario: ids
`cs_1`, `pp_1`, `pm_1`, then a plain success. -/
def oracleCheckout : Exec := fun n =>
  if n = 0 then .ok (.wellFormed (.jobj [("id", Json.jstr "cs_1")]))
  else if n = 1 then .ok (.wellFormed (.jobj [("id", Json.jstr "pp_1")]))
  else if n = 2 then .ok (.wellFormed (.jobj [("id", Json.jstr "pm_1")]))
  else .ok (.wellFormed (.jobj []))

/-- Unfolding of one executor-plus-decoder step: the state gains exactly the
issued call and the result is the step outcome at the index of this call. -/
theorem performStripeRequest_eq (ex : Examples) (oracle : Exec) (req : Base)
    (endpoint : String) (params : RequestParameters) (s : St) :
    performStripeRequest ex oracle req endpoint params s =
      (⟨s.calls ++ [⟨req, ex.APIKey, endpoint, params⟩], s.prints⟩,
       stepOutcome oracle s.calls.length) := by
  cases h : oracle s.calls.length <;>
    simp [performStripeRequest, makeRequest, stepOutcome, h]

/-- C3: with mocked responses giving ids cs_1, pp_1 and pm_1 and then a
plain success, CheckoutSessionCompleted issues exactly 4 calls in order:
POST /v1/checkout/sessions, GET /v1/payment_pages with session_id=cs_1,
POST /v1/payment_methods, POST /v1/payment_pages/pp_1/confirm with
payment_method=pm_1, and returns success. -/
theorem checkoutSessionCompleted_happy_path_calls :
    (CheckoutSessionCompleted exTest oracleCheckout stInit).snd = .ok () ∧
    ((CheckoutSessionCompleted exTest oracleCheckout stInit).fst.calls.map
      (fun c => (c.base.Method, c.endpoint, c.params.data))) =
      [("POST", "/v1/checkout/sessions",
        ["success_url=https://httpbin.org/post",
         "cancel_url=https://httpbin.org/post",
         "payment_method_types[]=card",
         "line_items[][name]=T-shirt",
         "line_items[][description]=Comfortable cotton t-shirt",
         "line_items[][amount]=1500",
         "line_items[][currency]=usd",
         "line_items[][quantity]=2"]),
       ("GET", "/v1/payment_pages", ["session_id=cs_1"]),
       ("POST", "/v1/payment_methods",
        ["type=card", "card[token]=tok_visa", "billing_details[email]=stripe@example.com"]),
       ("POST", "/v1/payment_pages/pp_1/confirm", ["payment_method=pm_1"])] :=
  ⟨rfl, rfl⟩

/-- C7: when the executor answers every step with a well-formed response
holding an id, ChargeCaptured issues exactly 2 calls: a POST to /v1/charges
with amount=2000, currency=usd, capture=false and source=tok_visa, then a
POST to /v1/charges/(id of the first response)/capture, and succeeds. -/
theorem chargeCaptured_happy_path_calls (ex : Examples) (oracle : Exec)
    (m0 m1 : RMap) (id0 : String)
    (h0 : stepOutcome oracle 0 = .ok m0) (hid0 : mapGet m0 "id" = some (.jstr id0))
    (h1 : stepOutcome oracle 1 = .ok m1) (hid1 : (mapGet m1 "id").isSome = true) :
    (ChargeCaptured ex oracle stInit).snd = .ok () ∧
    ((ChargeCaptured ex oracle stInit).fst.calls.map
      (fun c => (c.base.Method, c.endpoint, c.params.data))) =
      [("POST", "/v1/charges",
        ["amount=2000", "currency=usd", "capture=false", "source=tok_visa"]),
       ("POST", "/v1/charges/" ++ id0 ++ "/capture", [])] := by
  simp [ChargeCaptured, chargeCreated, buildRequest, performStripeRequest_eq, stInit,
    h0, h1, hid0, goFmtS, goFmtVal, validToken]

/-- Closed instance of chargeCaptured_happy_path_calls at a concrete oracle. -/
theorem chargeCaptured_happy_path_calls_witness :
    (ChargeCaptured exTest oracleIdOk stInit).snd = .ok () ∧
    ((ChargeCaptured exTest oracleIdOk stInit).fst.calls.map
      (fun c => (c.base.Method, c.endpoint, c.params.data))) =
      [("POST", "/v1/charges",
        ["amount=2000", "currency=usd", "capture=false", "source=tok_visa"]),
       ("POST", "/v1/charges/" ++ "obj_1" ++ "/capture", [])] :=
  chargeCaptured_happy_path_calls exTest oracleIdOk
    [("id", Json.jstr "obj_1")] [("id", Json.jstr "obj_1")] "obj_1" rfl rfl rfl rfl

/-- C1 counterexample: ChargeCaptured, fed a decoded response that lacks the
key id, does not abort: it still issues the dependent capture call, with the
missing id rendered as a Go nil, and returns success. -/
theorem chargeCaptured_missing_id_no_abort :
    (ChargeCaptured exTest oracleEmptyObj stInit).snd = .ok () ∧
    ((ChargeCaptured exTest oracleEmptyObj stInit).fst.calls.map (fun c => c.endpoint)) =
      ["/v1/charges", "/v1/charges/%!s(<nil>)/capture"] :=
  ⟨rfl, rfl⟩

/-- C1 (amended): in CheckoutSessionCompleted, whenever a decoded response
lacks the id being extracted, the trigger aborts at that step with the
descriptive error naming which object's id was expected, and issues no
further call; the other triggers perform no such check. -/
theorem checkoutSessionCompleted_missing_id_aborts (ex : Examples) (oracle : Exec)
    (m0 : RMap) (h0 : stepOutcome oracle 0 = .ok m0) :
    (mapGet m0 "id" = none →
      (CheckoutSessionCompleted ex oracle stInit).snd =
        .error "Unable to retrieve CheckoutSession ID" ∧
      (CheckoutSessionCompleted ex oracle stInit).fst.calls.length = 1) ∧
    (∀ v0 m1, mapGet m0 "id" = some v0 → stepOutcome oracle 1 = .ok m1 →
      mapGet m1 "id" = none →
      (CheckoutSessionCompleted ex oracle stInit).snd =
        .error "Unable to retrieve PaymentPage ID" ∧
      (CheckoutSessionCompleted ex oracle stInit).fst.calls.length = 2) ∧
    (∀ v0 m1 v1 m2, mapGet m0 "id" = some v0 → stepOutcome oracle 1 = .ok m1 →
      mapGet m1 "id" = some v1 → stepOutcome oracle 2 = .ok m2 →
      mapGet m2 "id" = none →
      (CheckoutSessionCompleted ex oracle stInit).snd =
        .error "Unable to retrieve PaymentMethod ID" ∧
      (CheckoutSessionCompleted ex oracle stInit).fst.calls.length = 3) := by
  refine ⟨?_, ?_, ?_⟩
  · intro hid
    simp [CheckoutSessionCompleted, buildRequest, performStripeRequest_eq, stInit, h0, hid]
  · intro v0 m1 hid0 h1 hid1
    simp [CheckoutSessionCompleted, buildRequest, performStripeRequest_eq, stInit,
      h0, hid0, h1, hid1]
  · intro v0 m1 v1 m2 hid0 h1 hid1 h2 hid2
    simp [CheckoutSessionCompleted, paymentMethodCreatedWithToken, buildRequest,
      performStripeRequest_eq, stInit, h0, hid0, h1, hid1, h2, hid2]

/-- Closed instance of checkoutSessionCompleted_missing_id_aborts at an
oracle whose first response is the empty JSON object. -/
theorem checkoutSessionCompleted_missing_id_aborts_witness :
    (CheckoutSessionCompleted exTest oracleEmptyObj stInit).snd =
      .error "Unable to retrieve CheckoutSession ID" ∧
    (CheckoutSessionCompleted exTest oracleEmptyObj stInit).fst.calls.length = 1 :=
  (checkoutSessionCompleted_missing_id_aborts exTest oracleEmptyObj [] rfl).1 rfl

/-- C2: if the executor or the decoder fails on step k, no call for any
later step is issued and the trigger returns exactly that failure; stated
for the 4-step CustomerSubscriptionDeleted and the 2-step ChargeCaptured. -/
theorem shortCircuit_on_step_failure (ex : Examples) (oracle : Exec) (k : Nat) (e : String)
    (hfail : stepOutcome oracle k = .error e)
    (hok : ∀ j, j < k → ∃ m, stepOutcome oracle j = .ok m) :
    (k < 4 →
      (CustomerSubscriptionDeleted ex oracle stInit).snd = .error e ∧
      (CustomerSubscriptionDeleted ex oracle stInit).fst.calls.length = k + 1) ∧
    (k < 2 →
      (ChargeCaptured ex oracle stInit).snd = .error e ∧
      (ChargeCaptured ex oracle stInit).fst.calls.length = k + 1) := by
  constructor
  · intro hk
    interval_cases k
    · simp [CustomerSubscriptionDeleted, customerCreated, buildRequest,
        performStripeRequest_eq, stInit, hfail]
    · obtain ⟨m0, h0⟩ := hok 0 (by omega)
      simp [CustomerSubscriptionDeleted, customerCreated, buildRequest,
        performStripeRequest_eq, stInit, h0, hfail]
    · obtain ⟨m0, h0⟩ := hok 0 (by omega)
      obtain ⟨m1, h1⟩ := hok 1 (by omega)
      simp [CustomerSubscriptionDeleted, customerCreated, buildRequest,
        performStripeRequest_eq, stInit, h0, h1, hfail]
    · obtain ⟨m0, h0⟩ := hok 0 (by omega)
      obtain ⟨m1, h1⟩ := hok 1 (by omega)
      obtain ⟨m2, h2⟩ := hok 2 (by omega)
      simp [CustomerSubscriptionDeleted, customerCreated, buildRequest,
        performStripeRequest_eq, stInit, h0, h1, h2, hfail]
  · intro hk
    interval_cases k
    · simp [ChargeCaptured, chargeCreated, buildRequest,
        performStripeRequest_eq, stInit, hfail]
    · obtain ⟨m0, h0⟩ := hok 0 (by omega)
      simp [ChargeCaptured, chargeCreated, buildRequest,
        performStripeRequest_eq, stInit, h0, hfail]

/-- Closed instance of shortCircuit_on_step_failure: the executor fails on
step 1, so CustomerSubscriptionDeleted stops after 2 calls with that error. -/
theorem shortCircuit_on_step_failure_witness :
    (CustomerSubscriptionDeleted exTest oracleFailAt1 stInit).snd = .error "boom" ∧
    (CustomerSubscriptionDeleted exTest oracleFailAt1 stInit).fst.calls.length = 1 + 1 :=
  (shortCircuit_on_step_failure exTest oracleFailAt1 1 "boom" rfl
    (fun j hj => by interval_cases j; exact ⟨[("id", Json.jstr "cus_1")], rfl⟩)).1 (by omega)

/-- C9: in the id-threading triggers other than CheckoutSessionCompleted,
a first response that decodes but lacks the key id does not abort the
trigger: the dependent request is still issued, with the missing value
rendered by Go's nil formatting in its path or parameters; stated for
ChargeCaptured, CustomerDeleted and InvoiceCreated. -/
theorem missing_id_threaded_as_nil (ex : Examples) (oracle : Exec) (m0 : RMap)
    (h0 : stepOutcome oracle 0 = .ok m0) (hid : mapGet m0 "id" = none) :
    ((ChargeCaptured ex oracle stInit).fst.calls.map (fun c => c.endpoint) =
       ["/v1/charges", "/v1/charges/%!s(<nil>)/capture"] ∧
     (ChargeCaptured ex oracle stInit).snd =
       (match stepOutcome oracle 1 with | .error e => .error e | .ok _ => .ok ())) ∧
    ((CustomerDeleted ex oracle stInit).fst.calls.map (fun c => c.endpoint) =
       ["/v1/customers", "/v1/customers/%!s(<nil>)"] ∧
     (CustomerDeleted ex oracle stInit).snd =
       (match stepOutcome oracle 1 with | .error e => .error e | .ok _ => .ok ())) ∧
    (((InvoiceCreated ex oracle stInit).fst.calls.map (fun c => c.params.data)).get? 1 =
       some ["currency=usd", "customer=%!s(<nil>)", "amount=2000"]) := by
  refine ⟨?_, ?_, ?_⟩
  · cases h1 : stepOutcome oracle 1 <;>
      simp [ChargeCaptured, chargeCreated, buildRequest, performStripeRequest_eq,
        stInit, h0, h1, hid, goFmtS]
  · cases h1 : stepOutcome oracle 1 <;>
      simp [CustomerDeleted, customerCreated, buildRequest, performStripeRequest_eq,
        stInit, h0, h1, hid, goFmtS]
  · cases h1 : stepOutcome oracle 1 <;>
      cases h2 : stepOutcome oracle 2 <;>
      simp [InvoiceCreated, customerCreated, createInvoiceItem, invoiceCreated,
        buildRequest, performStripeRequest_eq, stInit, h0, h1, h2, hid, goFmtS]

/-- Closed instance of missing_id_threaded_as_nil at the oracle answering
every call with the empty JSON object. -/
theorem missing_id_threaded_as_nil_witness :
    ((ChargeCaptured exTest oracleEmptyObj stInit).fst.calls.map (fun c => c.endpoint) =
       ["/v1/charges", "/v1/charges/%!s(<nil>)/capture"] ∧
     (ChargeCaptured exTest oracleEmptyObj stInit).snd =
       (match stepOutcome oracleEmptyObj 1 with | .error e => .error e | .ok _ => .ok ())) ∧
    ((CustomerDeleted exTest oracleEmptyObj stInit).fst.calls.map (fun c => c.endpoint) =
       ["/v1/customers", "/v1/customers/%!s(<nil>)"] ∧
     (CustomerDeleted exTest oracleEmptyObj stInit).snd =
       (match stepOutcome oracleEmptyObj 1 with | .error e => .error e | .ok _ => .ok ())) ∧
    (((InvoiceCreated exTest oracleEmptyObj stInit).fst.calls.map
        (fun c => c.params.data)).get? 1 =
       some ["currency=usd", "customer=%!s(<nil>)", "amount=2000"]) :=
  missing_id_threaded_as_nil exTest oracleEmptyObj [] rfl rfl

/-- C4: ResendEvent validates the id against the pattern before any network
call: a non-matching id yields zero calls and a validation error whose
message carries the exact pattern; a matching id yields exactly one POST to
/v1/events/(id)/retry whose outcome is propagated unchanged. -/
theorem resendEvent_validates_before_request (ex : Examples) (oracle : Exec) (id : String) :
    (evtPatternMatch id = false →
      (ResendEvent ex oracle id stInit).fst.calls = [] ∧
      (ResendEvent ex oracle id stInit).snd =
        .error ("Invalid event-id provided, should be of the form '" ++ evtPattern ++ "'")) ∧
    (evtPatternMatch id = true →
      ((ResendEvent ex oracle id stInit).fst.calls.map
        (fun c => (c.base.Method, c.endpoint, c.params.data)) =
        [("POST", "/v1/events/" ++ id ++ "/retry", [])] ∧
      (ResendEvent ex oracle id stInit).snd =
        (match stepOutcome oracle 0 with | .error e => .error e | .ok _ => .ok ()))) := by
  constructor
  · intro h
    simp [ResendEvent, matchStringEvt, h, stInit]
  · intro h
    cases h0 : stepOutcome oracle 0 <;>
      simp [ResendEvent, matchStringEvt, h, buildRequest, performStripeRequest_eq, stInit, h0]

/-- Closed instances of resendEvent_validates_before_request: bad-id makes
no call and fails with the pattern in the message; evt_AbC123 makes exactly
the one retry call and propagates the executor failure. -/
theorem resendEvent_validates_before_request_witness :
    ((ResendEvent exTest oracleBoom "bad-id" stInit).fst.calls = [] ∧
     (ResendEvent exTest oracleBoom "bad-id" stInit).snd =
       .error ("Invalid event-id provided, should be of the form '" ++ evtPattern ++ "'")) ∧
    ((ResendEvent exTest oracleBoom "evt_AbC123" stInit).fst.calls.map
        (fun c => (c.base.Method, c.endpoint, c.params.data)) =
        [("POST", "/v1/events/" ++ "evt_AbC123" ++ "/retry", [])] ∧
     (ResendEvent exTest oracleBoom "evt_AbC123" stInit).snd =
       (match stepOutcome oracleBoom 0 with | .error e => .error e | .ok _ => .ok ())) :=
  ⟨(resendEvent_validates_before_request exTest oracleBoom "bad-id").1 rfl,
   (resendEvent_validates_before_request exTest oracleBoom "evt_AbC123").2 rfl⟩

/-- C10: the error branch of the pattern match in ResendEvent is
unreachable (the fixed pattern always compiles), so ResendEvent can only
return success, the validation error for a non-matching id, or an error
propagated from the single retry call. -/
theorem resendEvent_result_trichotomy (ex : Examples) (oracle : Exec) (id : String) :
    matchStringEvt id = .ok (evtPatternMatch id) ∧
    ((ResendEvent ex oracle id stInit).snd = .ok () ∨
     (ResendEvent ex oracle id stInit).snd =
       .error ("Invalid event-id provided, should be of the form '" ++ evtPattern ++ "'") ∨
     ∃ e, stepOutcome oracle 0 = .error e ∧
       (ResendEvent ex oracle id stInit).snd = .error e) := by
  refine ⟨rfl, ?_⟩
  by_cases h : evtPatternMatch id = true
  · cases h0 : stepOutcome oracle 0 with
    | error e =>
      refine .inr (.inr ⟨e, rfl, ?_⟩)
      simp [ResendEvent, matchStringEvt, h, buildRequest, performStripeRequest_eq, stInit, h0]
    | ok m =>
      refine .inl ?_
      simp [ResendEvent, matchStringEvt, h, buildRequest, performStripeRequest_eq, stInit, h0]
  · have h' : evtPatternMatch id = false := by simpa using h
    refine .inr (.inl ?_)
    simp [ResendEvent, matchStringEvt, h', stInit]

/-- C5: WebhookEndpointsList issues exactly one GET to /v1/webhook_endpoints
with limit=30 and, by its very return type, never propagates an error; an
executor failure or an undecodable body yields the zero-value list. -/
theorem webhookEndpointsList_swallows_errors (ex : Examples) (oracle : Exec) :
    ((WebhookEndpointsList ex oracle stInit).fst.calls.map
      (fun c => (c.base.Method, c.base.SuppressOutput, c.endpoint, c.params.data)) =
      [("GET", true, "/v1/webhook_endpoints", ["limit=30"])]) ∧
    (∀ e, oracle 0 = .error e →
      (WebhookEndpointsList ex oracle stInit).snd = ⟨[]⟩) ∧
    (∀ m, oracle 0 = .ok (.malformed m) →
      (WebhookEndpointsList ex oracle stInit).snd = ⟨[]⟩) := by
  refine ⟨?_, fun e he => ?_, fun m hm => ?_⟩
  · cases h : oracle 0 <;> simp [WebhookEndpointsList, makeRequest, stInit, h]
  · simp [WebhookEndpointsList, makeRequest, stInit, he]
  · simp [WebhookEndpointsList, makeRequest, stInit, hm, unmarshalWebhookEndpointList]

/-- Closed instance of webhookEndpointsList_swallows_errors at the failing
oracle: the returned list has zero entries. -/
theorem webhookEndpointsList_swallows_errors_witness :
    (WebhookEndpointsList exTest oracleBoom stInit).snd = ⟨[]⟩ :=
  (webhookEndpointsList_swallows_errors exTest oracleBoom).2.1 "boom" rfl

/-- C6 divergence: InvoicePaymentFailed prints the line hello once its first
three steps succeed, even though every request is built with output
suppression; so the returned value is not the only observable output. -/
theorem invoicePaymentFailed_prints_hello :
    (InvoicePaymentFailed exTest oracleIdOk stInit).fst.prints = ["hello"] ∧
    (InvoicePaymentFailed exTest oracleIdOk stInit).fst.calls.all
      (fun c => c.base.SuppressOutput) = true ∧
    (InvoicePaymentFailed exTest oracleIdOk stInit).fst.calls.map (fun c => c.endpoint) =
      ["/v1/customers", "/v1/invoiceitems", "/v1/invoices", "/v1/invoices/obj_1/pay"] :=
  ⟨rfl, rfl, rfl⟩

/-- C8: the funding-source token is selected per trigger: ChargeSucceeded,
ChargeCaptured, ChargeRefunded and InvoicePaymentSucceeded use tok_visa,
ChargeFailed uses tok_chargeDeclined, ChargeDisputed uses
tok_createDisputeInquiry and InvoicePaymentFailed creates its customer with
tok_chargeCustomerFail; apart from the token, the failing and succeeding
chains issue the same sequence of endpoints under any executor. -/
theorem funding_token_selection (ex : Examples) (oracle : Exec) :
    validToken = "tok_visa" ∧
    declinedToken = "tok_chargeDeclined" ∧
    disputeToken = "tok_createDisputeInquiry" ∧
    chargeFailedToken = "tok_chargeCustomerFail" ∧
    ((ChargeSucceeded ex oracle stInit).fst.calls.map (fun c => c.params.data)).head? =
      some ["amount=2000", "currency=usd", "source=tok_visa"] ∧
    ((ChargeCaptured ex oracle stInit).fst.calls.map (fun c => c.params.data)).head? =
      some ["amount=2000", "currency=usd", "capture=false", "source=tok_visa"] ∧
    ((ChargeRefunded ex oracle stInit).fst.calls.map (fun c => c.params.data)).head? =
      some ["amount=2000", "currency=usd", "source=tok_visa"] ∧
    ((InvoicePaymentSucceeded ex oracle stInit).fst.calls.map (fun c => c.params.data)).head? =
      some ["source=tok_visa"] ∧
    ((ChargeFailed ex oracle stInit).fst.calls.map (fun c => c.params.data)).head? =
      some ["amount=2000", "currency=usd", "source=tok_chargeDeclined"] ∧
    ((ChargeDisputed ex oracle stInit).fst.calls.map (fun c => c.params.data)).head? =
      some ["amount=2000", "currency=usd", "source=tok_createDisputeInquiry"] ∧
    ((InvoicePaymentFailed ex oracle stInit).fst.calls.map (fun c => c.params.data)).head? =
      some ["source=tok_chargeCustomerFail"] ∧
    (ChargeFailed ex oracle stInit).fst.calls.map (fun c => c.endpoint) =
      (ChargeSucceeded ex oracle stInit).fst.calls.map (fun c => c.endpoint) ∧
    (InvoicePaymentFailed ex oracle stInit).fst.calls.map (fun c => c.endpoint) =
      (InvoicePaymentSucceeded ex oracle stInit).fst.calls.map (fun c => c.endpoint) := by
  refine ⟨rfl, rfl, rfl, rfl, ?_, ?_, ?_, ?_, ?_, ?_, ?_, ?_, ?_⟩
  · cases h0 : stepOutcome oracle 0 <;>
      simp [ChargeSucceeded, chargeCreated, buildRequest, performStripeRequest_eq,
        stInit, h0, validToken]
  · cases h0 : stepOutcome oracle 0 <;> cases h1 : stepOutcome oracle 1 <;>
      simp [ChargeCaptured, chargeCreated, buildRequest, performStripeRequest_eq,
        stInit, h0, h1, validToken]
  · cases h0 : stepOutcome oracle 0 <;> cases h1 : stepOutcome oracle 1 <;>
      simp [ChargeRefunded, chargeCreated, buildRequest, performStripeRequest_eq,
        stInit, h0, h1, validToken]
  · cases h0 : stepOutcome oracle 0 <;> cases h1 : stepOutcome oracle 1 <;>
      cases h2 : stepOutcome oracle 2 <;> cases h3 : stepOutcome oracle 3 <;>
      simp [InvoicePaymentSucceeded, customerCreated, createInvoiceItem, invoiceCreated,
        buildRequest, performStripeRequest_eq, stInit, h0, h1, h2, h3, validToken]
  · cases h0 : stepOutcome oracle 0 <;>
      simp [ChargeFailed, chargeCreated, buildRequest, performStripeRequest_eq,
        stInit, h0, declinedToken]
  · cases h0 : stepOutcome oracle 0 <;>
      simp [ChargeDisputed, chargeCreated, buildRequest, performStripeRequest_eq,
        stInit, h0, disputeToken]
  · cases h0 : stepOutcome oracle 0 <;> cases h1 : stepOutcome oracle 1 <;>
      cases h2 : stepOutcome oracle 2 <;> cases h3 : stepOutcome oracle 3 <;>
      simp [InvoicePaymentFailed, customerCreated, createInvoiceItem, invoiceCreated,
        buildRequest, performStripeRequest_eq, stInit, h0, h1, h2, h3, chargeFailedToken]
  · cases h0 : stepOutcome oracle 0 <;>
      simp [ChargeFailed, ChargeSucceeded, chargeCreated, buildRequest,
        performStripeRequest_eq, stInit, h0]
  · cases h0 : stepOutcome oracle 0 <;> cases h1 : stepOutcome oracle 1 <;>
      cases h2 : stepOutcome oracle 2 <;> cases h3 : stepOutcome oracle 3 <;>
      simp [InvoicePaymentFailed, InvoicePaymentSucceeded, customerCreated,
        createInvoiceItem, invoiceCreated, buildRequest, performStripeRequest_eq,
        stInit, h0, h1, h2, h3]
